import Mathlib

/-!
Verification of the readiness-coordinated channel (`src/channel.rs`).

The Rust source is shallowly embedded as a sequential state machine.
Machine-word arithmetic on the atomic `pending: AtomicUsize` counter is
modelled as `Nat` with explicit wrapping modulo `2 ^ 64`.

The readiness setter (`SetReadiness::set_readiness`) is an external,
fallible collaborator: every call the code makes consumes the next
outcome from an environment list `env : List (Option IoError)`
(`Option.none` = the call succeeded, `some e` = it failed with `e`);
the calls the code actually performs are recorded in a trace so that
"the setter is invoked with X" claims become facts about the trace.
-/

namespace MioChannel

/-- Word size of `usize` on the 64-bit targets the crate compiles for;
`fetch_add`/`fetch_sub` wrap modulo this value. -/
def USIZE : Nat := 2 ^ 64

/-- Modelled from the spec: `io::ErrorKind` of the external `io` module
(not under src/); the channel only ever constructs `Other` errors, all
other kinds arrive opaquely from the readiness setter. -/
inductive ErrorKind
| other
| external (tag : Nat)
deriving DecidableEq

/-- Modelled from the spec: an `io::Error`, an error kind plus a message. -/
structure IoError where
  kind : ErrorKind
  msg : String
deriving DecidableEq

/-- Modelled from the spec: the readiness values the channel uses,
`EventSet::readable()` and `EventSet::none()` (the readiness flag is a
coarse level-triggered boolean, spec glossary). -/
inductive EventSet
| readable
| none
deriving DecidableEq

/-- Shared control state `Inner`: the atomic `pending` counter and the
occupancy of the `AtomicLazy<SetReadiness>` write-once cell
(`set_readiness = true` means the cell is occupied). -/
structure Inner where
  pending : Nat
  set_readiness : Bool
deriving DecidableEq

/-- Consume the next readiness-setter outcome from the environment;
an exhausted environment means the call succeeds. -/
def takeOutcome : List (Option IoError) → Option IoError × List (Option IoError)
| [] => (Option.none, [])
| o :: rest => (o, rest)

/-- Result of `SenderCtl::inc`: updated shared state, the readiness
calls performed (in order), and the returned `io::Result<()>`. -/
structure IncOut where
  inner : Inner
  calls : List EventSet
  res : Except IoError Unit

/-- Embedding of `SenderCtl::inc` (channel.rs lines 105-114):
`fetch_add(1)` observing the previous value, then, on the 0 to 1
transition with the readiness cell occupied, `set_readiness(readable)`
whose error propagates via `try!`. -/
def SenderCtl.inc (s : Inner) (env : List (Option IoError)) : IncOut :=
  let prev := s.pending
  let s1 : Inner := { s with pending := (s.pending + 1) % USIZE }
  if prev = 0 then
    if s1.set_readiness then
      match (takeOutcome env).1 with
      | Option.none => ⟨s1, [EventSet.readable], Except.ok ()⟩
      | Option.some e => ⟨s1, [EventSet.readable], Except.error e⟩
    else ⟨s1, [], Except.ok ()⟩
  else ⟨s1, [], Except.ok ()⟩

/-- Events of a `ReceiverCtl::dec` run, in program order: the eager
unset (a `set_readiness` call before the decrement), the
`fetch_sub(1)` itself recording the previous value, and the recheck
`set_readiness` call after the decrement. -/
inductive DecEvent
| eagerUnset (es : EventSet)
| decrement (prev : Nat)
| recheck (es : EventSet)
deriving DecidableEq

/-- Result of `ReceiverCtl::dec`: updated shared state, the event
trace, and the returned `io::Result<()>`. -/
structure DecOut where
  inner : Inner
  trace : List DecEvent
  res : Except IoError Unit

/-- Wrapping decrement of a `usize`, as `fetch_sub(1)` performs. -/
def wrapSub1 (n : Nat) : Nat := (n + (USIZE - 1)) % USIZE

/-- Embedding of the part of `ReceiverCtl::dec` after the eager-unset
conditional (channel.rs lines 128-139): the `fetch_sub(1)` observing
`second`, then, when `first == 1 && second > 0` and the cell is
occupied, a recheck call `set_readiness(EventSet::none())` — the
source passes `none()` here, exactly as written on line 135. -/
def dec_after_eager (s : Inner) (first : Nat) (env : List (Option IoError))
    (tr : List DecEvent) : DecOut :=
  let second := s.pending
  let s1 : Inner := { s with pending := wrapSub1 s.pending }
  let tr1 := tr ++ [DecEvent.decrement second]
  if first = 1 ∧ second > 0 then
    if s1.set_readiness then
      match (takeOutcome env).1 with
      | Option.none => ⟨s1, tr1 ++ [DecEvent.recheck EventSet.none], Except.ok ()⟩
      | Option.some e => ⟨s1, tr1 ++ [DecEvent.recheck EventSet.none], Except.error e⟩
    else ⟨s1, tr1, Except.ok ()⟩
  else ⟨s1, tr1, Except.ok ()⟩

/-- Embedding of `ReceiverCtl::dec` (channel.rs lines 118-140): load
`pending` as `first`; if `first == 1` and the readiness cell is
occupied, eagerly `set_readiness(EventSet::none())` (its error returns
early via `try!`, before the decrement); then decrement and recheck. -/
def ReceiverCtl.dec (s : Inner) (env : List (Option IoError)) : DecOut :=
  let first := s.pending
  if first = 1 then
    if s.set_readiness then
      let p := takeOutcome env
      match p.1 with
      | Option.none => dec_after_eager s first p.2 [DecEvent.eagerUnset EventSet.none]
      | Option.some e => ⟨s, [DecEvent.eagerUnset EventSet.none], Except.error e⟩
    else dec_after_eager s first env []
  else dec_after_eager s first env []

/-- Receiver-side control handle: the `Lazy<Registration>` write-once
cell (occupancy only) together with the shared `Inner`. -/
structure ReceiverCtl where
  registration : Bool
  inner : Inner
deriving DecidableEq

/-- Modelled from the spec: the write-once publication cells `Lazy` and
`AtomicLazy` (module `lazy`, not under src/). Contract (spec 4.1/9.2):
initially empty; `set` transitions empty to occupied exactly once and a
second `set` fails without altering the stored value; `as_ref` and
`is_some` observe occupancy. A cell is a `Bool` occupancy flag;
`lazySet` maps it to the new occupancy and whether the `set` succeeded. -/
def lazySet (occupied : Bool) : Bool × Bool := (true, !occupied)

/-- The error `register` returns when the registration cell is already
occupied (channel.rs line 146). -/
def alreadyRegisteredErr : IoError := ⟨ErrorKind.other, "receiver already registered"⟩

/-- The error `reregister`/`deregister` return when no registration
exists (channel.rs lines 166 and 173). -/
def notRegisteredErr : IoError := ⟨ErrorKind.other, "receiver not registered"⟩

/-- Outcome of a call to `register`: success, an `io::Error`, or a hit
of one of the two `expect("unexpected state encountered")` panic
branches. -/
inductive RegResult
| ok
| ioErr (e : IoError)
| panicked (msg : String)
deriving DecidableEq

/-- Result of `ReceiverCtl::register`: updated control handle, the
readiness calls made on the freshly created setter, and the outcome. -/
structure RegOut where
  ctl : ReceiverCtl
  initCalls : List EventSet
  res : RegResult

/-- Embedding of `ReceiverCtl::register` (channel.rs lines 144-161):
fail if the registration cell is occupied; otherwise create a fresh
`(Registration, SetReadiness)` pair (modelled from the spec:
`Registration::new` is external to src/), set initial readiness to
readable when `pending > 0` with the outcome of that call discarded
(`let _ = ...` on line 154), then publish both handles into their
write-once cells, panicking if either `set` fails. The environment
parameter is unused precisely because the one readiness call made here
ignores its outcome. -/
def ReceiverCtl.register (r : ReceiverCtl) (_env : List (Option IoError)) : RegOut :=
  if r.registration then
    ⟨r, [], RegResult.ioErr alreadyRegisteredErr⟩
  else
    let initCalls := if r.inner.pending > 0 then [EventSet.readable] else []
    let regSet := lazySet r.registration
    if regSet.2 then
      let srSet := lazySet r.inner.set_readiness
      if srSet.2 then
        ⟨⟨regSet.1, { r.inner with set_readiness := srSet.1 }⟩, initCalls, RegResult.ok⟩
      else
        ⟨⟨regSet.1, r.inner⟩, initCalls, RegResult.panicked "unexpected state encountered"⟩
    else
      ⟨r, initCalls, RegResult.panicked "unexpected state encountered"⟩

/-- Embedding of `ReceiverCtl::reregister` (channel.rs lines 163-168):
with a registration present, delegate to `Registration::update`, whose
outcome `pollOutcome` the polling engine supplies (modelled from the
spec: `Registration` is external to src/); otherwise fail. The control
state is never modified. -/
def ReceiverCtl.reregister (r : ReceiverCtl) (pollOutcome : Except IoError Unit) :
    ReceiverCtl × Except IoError Unit :=
  if r.registration then (r, pollOutcome)
  else (r, Except.error notRegisteredErr)

/-- Embedding of `ReceiverCtl::deregister` (channel.rs lines 170-175):
with a registration present, delegate to `Registration::deregister`
(outcome supplied by the polling engine); otherwise fail. Neither cell
is cleared. -/
def ReceiverCtl.deregister (r : ReceiverCtl) (pollOutcome : Except IoError Unit) :
    ReceiverCtl × Except IoError Unit :=
  if r.registration then (r, pollOutcome)
  else (r, Except.error notRegisteredErr)

/-- Modelled from the spec: the underlying `std::sync::mpsc` transport
(external collaborator, spec section 6): a FIFO queue, a capacity
(`Option.none` = unbounded `mpsc::channel`, `some c` = bounded
`mpsc::sync_channel(c)`), and liveness of the two ends. -/
structure Transport (α : Type) where
  queue : List α
  capacity : Option Nat
  senderAlive : Bool
  receiverAlive : Bool

/-- Channel-level send error `SendError<T>` (channel.rs lines 33-37). -/
inductive SendError (α : Type)
| io (e : IoError)
| disconnected (v : α)

/-- Channel-level try_send error `TrySendError<T>` (channel.rs lines 39-44). -/
inductive TrySendError (α : Type)
| io (e : IoError)
| full (v : α)
| disconnected (v : α)

/-- The transport receive error `mpsc::TryRecvError`. -/
inductive TryRecvError
| empty
| disconnected
deriving DecidableEq

/-- Outcome of the possibly blocking `Sender::send`: success, a
channel-level error, or blocked forever on a full bounded transport
(the blocking belongs to the external transport, spec section 5). -/
inductive SendOutcome (α : Type)
| ok
| err (e : SendError α)
| blocked

/-- Outcome of the transport-level blocking send. -/
inductive TransSend (α : Type)
| sent
| disconnected (v : α)
| blocked

/-- Embedding of `StdSender::send` (channel.rs lines 204-209) over the
modelled transport: both flavors fail with `Disconnected` when the
receiver is gone; the unbounded flavor otherwise enqueues; the bounded
flavor enqueues when below capacity and otherwise blocks. -/
def StdSender.send (t : Transport α) (v : α) : Transport α × TransSend α :=
  if t.receiverAlive then
    match t.capacity with
    | Option.none => ({ t with queue := t.queue ++ [v] }, TransSend.sent)
    | Option.some c =>
        if t.queue.length < c then ({ t with queue := t.queue ++ [v] }, TransSend.sent)
        else (t, TransSend.blocked)
  else (t, TransSend.disconnected v)

/-- Embedding of `StdSender::try_send` (channel.rs lines 211-216): the
bounded flavor is `SyncSender::try_send` (may fail `Full`); the
unbounded flavor delegates to the plain `send` of `mpsc::Sender`,
whose only error is `Disconnected`, converted via
`TrySendError::from`. -/
def StdSender.trySend (t : Transport α) (v : α) : Transport α × Except (TrySendError α) Unit :=
  match t.capacity with
  | Option.some c =>
      if t.receiverAlive then
        if t.queue.length < c then ({ t with queue := t.queue ++ [v] }, Except.ok ())
        else (t, Except.error (TrySendError.full v))
      else (t, Except.error (TrySendError.disconnected v))
  | Option.none =>
      if t.receiverAlive then ({ t with queue := t.queue ++ [v] }, Except.ok ())
      else (t, Except.error (TrySendError.disconnected v))

/-- Embedding of `mpsc::Receiver::try_recv`: pop the queue head when
present; on an empty queue report `Empty` while a sender lives and
`Disconnected` otherwise. -/
def stdTryRecv (t : Transport α) : Transport α × Except TryRecvError α :=
  match t.queue with
  | v :: rest => ({ t with queue := rest }, Except.ok v)
  | [] =>
      if t.senderAlive then (t, Except.error TryRecvError.empty)
      else (t, Except.error TryRecvError.disconnected)

/-- The whole channel, sequentially: the transport plus the control
state shared (via `Arc<Inner>`) between `SenderCtl` and `ReceiverCtl`. -/
structure Chan (α : Type) where
  transport : Transport α
  ctl : ReceiverCtl

/-- Embedding of `from_std_channel` composed with `ctl_pair`
(channel.rs lines 51-66 and 85-101): an unbounded transport paired
with fresh control state — `pending` 0, both write-once cells empty. -/
def from_std_channel (α : Type) : Chan α :=
  ⟨⟨[], Option.none, true, true⟩, ⟨false, ⟨0, false⟩⟩⟩

/-- Embedding of `from_std_sync_channel` composed with `ctl_pair`
(channel.rs lines 68-83 and 85-101). -/
def from_std_sync_channel (α : Type) (cap : Nat) : Chan α :=
  ⟨⟨[], Option.some cap, true, true⟩, ⟨false, ⟨0, false⟩⟩⟩

/-- Embedding of `Sender::send` (channel.rs lines 179-184): transport
send, and on success `SenderCtl::inc`, whose error surfaces as
`SendError::Io` even though the value is already enqueued. Returns the
new channel, the readiness calls made, and the outcome. -/
def Sender.send (c : Chan α) (v : α) (env : List (Option IoError)) :
    Chan α × List EventSet × SendOutcome α :=
  match StdSender.send c.transport v with
  | (t1, TransSend.sent) =>
      let o := SenderCtl.inc c.ctl.inner env
      let c1 : Chan α := ⟨t1, { c.ctl with inner := o.inner }⟩
      match o.res with
      | Except.ok _ => (c1, o.calls, SendOutcome.ok)
      | Except.error e => (c1, o.calls, SendOutcome.err (SendError.io e))
  | (t1, TransSend.disconnected w) => (⟨t1, c.ctl⟩, [], SendOutcome.err (SendError.disconnected w))
  | (t1, TransSend.blocked) => (⟨t1, c.ctl⟩, [], SendOutcome.blocked)

/-- Embedding of `Sender::try_send` (channel.rs lines 186-191):
non-blocking transport send, and on success `SenderCtl::inc`, whose
error surfaces as `TrySendError::Io`. -/
def Sender.trySend (c : Chan α) (v : α) (env : List (Option IoError)) :
    Chan α × List EventSet × Except (TrySendError α) Unit :=
  match StdSender.trySend c.transport v with
  | (t1, Except.ok _) =>
      let o := SenderCtl.inc c.ctl.inner env
      let c1 : Chan α := ⟨t1, { c.ctl with inner := o.inner }⟩
      match o.res with
      | Except.ok _ => (c1, o.calls, Except.ok ())
      | Except.error e => (c1, o.calls, Except.error (TrySendError.io e))
  | (t1, Except.error e) => (⟨t1, c.ctl⟩, [], Except.error e)

/-- Embedding of `Receiver::try_recv` (channel.rs lines 229-234):
non-blocking transport receive, and on success `ReceiverCtl::dec` with
its result discarded (`let _ = self.ctl.dec()` on line 231): the
dequeued value is returned regardless. Also returns the dec trace. -/
def Receiver.tryRecv (c : Chan α) (env : List (Option IoError)) :
    Chan α × List DecEvent × Except TryRecvError α :=
  match stdTryRecv c.transport with
  | (t1, Except.ok v) =>
      let d := ReceiverCtl.dec c.ctl.inner env
      (⟨t1, { c.ctl with inner := d.inner }⟩, d.trace, Except.ok v)
  | (t1, Except.error e) => (⟨t1, c.ctl⟩, [], Except.error e)

/-- Embedding of `Evented for Receiver` `register` (channel.rs lines
238-240): delegate to the control handle. -/
def Receiver.register (c : Chan α) (env : List (Option IoError)) :
    Chan α × List EventSet × RegResult :=
  let o := ReceiverCtl.register c.ctl env
  (⟨c.transport, o.ctl⟩, o.initCalls, o.res)

/-- Embedding of `Evented for Receiver` `reregister` (channel.rs lines
242-244): delegate to the control handle. -/
def Receiver.reregister (c : Chan α) (pollOutcome : Except IoError Unit) :
    Chan α × Except IoError Unit :=
  let o := ReceiverCtl.reregister c.ctl pollOutcome
  (⟨c.transport, o.1⟩, o.2)

/-- Embedding of `Evented for Receiver` `deregister` (channel.rs lines
246-248): delegate to the control handle. -/
def Receiver.deregister (c : Chan α) (pollOutcome : Except IoError Unit) :
    Chan α × Except IoError Unit :=
  let o := ReceiverCtl.deregister c.ctl pollOutcome
  (⟨c.transport, o.1⟩, o.2)

/-- One user-visible operation on a channel, carrying the environment
of readiness-setter (respectively polling-engine) outcomes it runs
against. -/
inductive ChanOp (α : Type)
| send (v : α) (env : List (Option IoError))
| trySend (v : α) (env : List (Option IoError))
| tryRecv (env : List (Option IoError))
| register (env : List (Option IoError))
| reregister (pollOutcome : Except IoError Unit)
| deregister (pollOutcome : Except IoError Unit)

/-- The operations of the transport layer only — the quantification
domain of the counter invariant. -/
def ChanOp.isTransport : ChanOp α → Bool
| ChanOp.send _ _ => true
| ChanOp.trySend _ _ => true
| ChanOp.tryRecv _ => true
| _ => false

/-- Did this `Sender::send` outcome correspond to a successful enqueue
into the transport? A readiness `Io` error still means the value was
enqueued. -/
def sendEnqueued : SendOutcome α → Bool
| SendOutcome.ok => true
| SendOutcome.err (SendError.io _) => true
| _ => false

/-- Did this `Sender::try_send` outcome correspond to a successful
enqueue into the transport? -/
def trySendEnqueued : Except (TrySendError α) Unit → Bool
| Except.ok _ => true
| Except.error (TrySendError.io _) => true
| _ => false

/-- Did `try_recv` successfully dequeue a value? -/
def recvSucceeded : Except TryRecvError α → Bool
| Except.ok _ => true
| Except.error _ => false

/-- Accumulated run state: the channel plus the counts of successful
enqueues and dequeues, and whether some `fetch_sub(1)` ever executed
on a zero counter (an underflow, wrapping to `USIZE - 1`). -/
structure RunAcc (α : Type) where
  chan : Chan α
  enq : Nat
  deq : Nat
  underflow : Bool

/-- Execute one operation, updating the accounting. -/
def stepC (a : RunAcc α) : ChanOp α → RunAcc α
| ChanOp.send v env =>
    let o := Sender.send a.chan v env
    ⟨o.1, a.enq + (if sendEnqueued o.2.2 then 1 else 0), a.deq, a.underflow⟩
| ChanOp.trySend v env =>
    let o := Sender.trySend a.chan v env
    ⟨o.1, a.enq + (if trySendEnqueued o.2.2 then 1 else 0), a.deq, a.underflow⟩
| ChanOp.tryRecv env =>
    let o := Receiver.tryRecv a.chan env
    ⟨o.1, a.enq, a.deq + (if recvSucceeded o.2.2 then 1 else 0),
      a.underflow || decide (DecEvent.decrement 0 ∈ o.2.1)⟩
| ChanOp.register env => ⟨(Receiver.register a.chan env).1, a.enq, a.deq, a.underflow⟩
| ChanOp.reregister po => ⟨(Receiver.reregister a.chan po).1, a.enq, a.deq, a.underflow⟩
| ChanOp.deregister po => ⟨(Receiver.deregister a.chan po).1, a.enq, a.deq, a.underflow⟩

/-- Execute a list of operations in order. -/
def runC (a : RunAcc α) : List (ChanOp α) → RunAcc α
| [] => a
| op :: ops => runC (stepC a op) ops

/-- The channel reached from `c` by a list of operations. -/
def run (c : Chan α) (ops : List (ChanOp α)) : Chan α :=
  (runC ⟨c, 0, 0, false⟩ ops).chan

/-- Invariant of runs made of transport operations only: `pending`
mirrors the queue depth and counts enqueues minus dequeues, no
`fetch_sub` underflow has occurred, and both write-once cells are
still empty (nothing registered). -/
def InvC8 (a : RunAcc α) : Prop :=
  a.chan.ctl.inner.pending = a.chan.transport.queue.length
  ∧ a.chan.ctl.inner.pending + a.deq = a.enq
  ∧ a.underflow = false
  ∧ a.chan.ctl.inner.set_readiness = false
  ∧ a.chan.ctl.registration = false

lemma USIZE_pos : 0 < USIZE := by norm_num [USIZE]

lemma wrapSub1_eq (p : Nat) (h1 : 1 ≤ p) (h2 : p < USIZE) : wrapSub1 p = p - 1 := by
  have hU : 0 < USIZE := USIZE_pos
  unfold wrapSub1
  have h : p + (USIZE - 1) = (p - 1) + 1 * USIZE := by omega
  rw [h, Nat.add_mul_mod_self_right]
  exact Nat.mod_eq_of_lt (by omega)

lemma inc_sr_false (s : Inner) (env : List (Option IoError)) (h : s.set_readiness = false) :
    SenderCtl.inc s env = ⟨⟨(s.pending + 1) % USIZE, false⟩, [], Except.ok ()⟩ := by
  rcases s with ⟨p, sr⟩
  subst h
  by_cases h0 : p = 0 <;> simp [SenderCtl.inc, h0]

lemma dec_sr_false (s : Inner) (env : List (Option IoError)) (h : s.set_readiness = false) :
    ReceiverCtl.dec s env
      = ⟨⟨wrapSub1 s.pending, false⟩, [DecEvent.decrement s.pending], Except.ok ()⟩ := by
  rcases s with ⟨p, sr⟩
  subst h
  by_cases h1 : p = 1 <;> simp [ReceiverCtl.dec, dec_after_eager, h1]

lemma inc_preserves_sr (s : Inner) (env : List (Option IoError)) :
    (SenderCtl.inc s env).inner.set_readiness = s.set_readiness := by
  rcases s with ⟨p, sr⟩
  by_cases h0 : p = 0 <;> by_cases hsr : sr = true <;>
    rcases env with _ | ⟨o, rest⟩ <;> try rcases o with _ | e
  all_goals simp_all [SenderCtl.inc, takeOutcome]

lemma dec_preserves_sr (s : Inner) (env : List (Option IoError)) :
    (ReceiverCtl.dec s env).inner.set_readiness = s.set_readiness := by
  rcases s with ⟨p, sr⟩
  by_cases h1 : p = 1 <;> by_cases hsr : sr = true <;>
    rcases env with _ | ⟨o, rest⟩ <;> try rcases o with _ | e
  all_goals simp_all [ReceiverCtl.dec, dec_after_eager, takeOutcome]
  all_goals split <;> simp_all

/-- Register on a channel with both write-once cells empty: the guard
passes and both publications succeed, yielding both cells occupied. -/
lemma register_ok_of_empty (r : ReceiverCtl) (env : List (Option IoError))
    (h1 : r.registration = false) (h2 : r.inner.set_readiness = false) :
    (ReceiverCtl.register r env).res = RegResult.ok
    ∧ (ReceiverCtl.register r env).ctl
        = ⟨true, { r.inner with set_readiness := true }⟩ := by
  rcases r with ⟨reg, ⟨p, sr⟩⟩
  simp_all [ReceiverCtl.register, lazySet]

/-- C1: the claim reads the correction branch of `ReceiverCtl::dec`
(`first == 1 && second > 0`, readiness cell occupied) as re-setting
readiness to readable; the code instead calls
`set_readiness(EventSet::none())` there — with `pending = 1` and the
cell occupied the whole run is: eager unset to none, decrement
observing 1, and a recheck that sets none again, contradicting the
accompanying source comment that readiness "must be reset here". -/
theorem dec_recheck_sets_none_not_readable :
    ReceiverCtl.dec ⟨1, true⟩ [Option.none, Option.none]
      = ⟨⟨0, true⟩, [DecEvent.eagerUnset EventSet.none, DecEvent.decrement 1,
          DecEvent.recheck EventSet.none], Except.ok ()⟩ := rfl

/-- C2: `ReceiverCtl::dec` first loads `pending` as `first`; the very
first event of its trace is the eager `set_readiness(none)` call
exactly when `first = 1` and the readiness cell is occupied; in every
other case the trace starts directly with the decrement, so no
readiness call precedes it. -/
theorem dec_eager_unset_iff (s : Inner) (env : List (Option IoError)) :
    ((ReceiverCtl.dec s env).trace.head?
        = Option.some (DecEvent.eagerUnset EventSet.none)
      ↔ (s.pending = 1 ∧ s.set_readiness = true))
    ∧ (¬ (s.pending = 1 ∧ s.set_readiness = true) →
        (ReceiverCtl.dec s env).trace.head?
          = Option.some (DecEvent.decrement s.pending)) := by
  rcases s with ⟨p, sr⟩
  by_cases h1 : p = 1 <;> by_cases hsr : sr = true <;>
    rcases env with _ | ⟨o, rest⟩ <;> try rcases o with _ | e
  all_goals simp_all [ReceiverCtl.dec, dec_after_eager, takeOutcome]
  all_goals split <;> simp_all

/-- C2 witness: with `pending = 2` and the cell occupied the trace
starts with the decrement, no readiness call before it. -/
theorem dec_eager_unset_iff_witness :
    (ReceiverCtl.dec ⟨2, true⟩ []).trace.head?
      = Option.some (DecEvent.decrement 2) :=
  (dec_eager_unset_iff ⟨2, true⟩ []).2 (by decide)

/-- C3: `SenderCtl::inc` invokes the readiness setter, with readable,
exactly when the previous counter value was 0 and the cell is
occupied; it returns success whenever no call was made or the call
succeeded; an error of the call is returned as-is; and in every case
— error included — the counter has been incremented (wrapping). -/
theorem inc_readable_on_zero_transition (s : Inner) (env : List (Option IoError)) :
    ((SenderCtl.inc s env).calls = [EventSet.readable]
      ↔ (s.pending = 0 ∧ s.set_readiness = true))
    ∧ ((SenderCtl.inc s env).calls = [] ∨ (takeOutcome env).1 = Option.none →
        (SenderCtl.inc s env).res = Except.ok ())
    ∧ (∀ e, (SenderCtl.inc s env).res = Except.error e →
        (takeOutcome env).1 = Option.some e
        ∧ (SenderCtl.inc s env).calls = [EventSet.readable])
    ∧ (SenderCtl.inc s env).inner.pending = (s.pending + 1) % USIZE := by
  rcases s with ⟨p, sr⟩
  by_cases h0 : p = 0 <;> by_cases hsr : sr = true <;>
    rcases env with _ | ⟨o, rest⟩ <;> try rcases o with _ | e
  all_goals simp_all [SenderCtl.inc, takeOutcome]

/-- C3 witness: at `pending = 0`, occupied cell and a failing setter
call, the error comes back and the counter was still incremented. -/
theorem inc_readable_on_zero_transition_witness :
    (takeOutcome [Option.some (⟨ErrorKind.external 7, "setter failed"⟩ : IoError)]).1
        = Option.some ⟨ErrorKind.external 7, "setter failed"⟩
    ∧ (SenderCtl.inc ⟨0, true⟩ [Option.some ⟨ErrorKind.external 7, "setter failed"⟩]).calls
        = [EventSet.readable] :=
  (inc_readable_on_zero_transition ⟨0, true⟩
    [Option.some ⟨ErrorKind.external 7, "setter failed"⟩]).2.2.1
    ⟨ErrorKind.external 7, "setter failed"⟩ rfl

/-- C4: on a Receiver whose cells are still empty, `reregister` and
`deregister` fail with "receiver not registered"; a first `register`
succeeds, after which a second `register` fails with "receiver already
registered"; `deregister` leaves the control state untouched, so
`register` keeps failing with "receiver already registered" even after
a `deregister`. -/
theorem registration_lifecycle (α : Type) (c : Chan α) (po po2 : Except IoError Unit)
    (env env2 env3 : List (Option IoError))
    (h1 : c.ctl.registration = false) (h2 : c.ctl.inner.set_readiness = false) :
    (Receiver.reregister c po).2 = Except.error notRegisteredErr
    ∧ (Receiver.deregister c po).2 = Except.error notRegisteredErr
    ∧ (Receiver.register c env).2.2 = RegResult.ok
    ∧ (Receiver.register (Receiver.register c env).1 env2).2.2
        = RegResult.ioErr alreadyRegisteredErr
    ∧ (Receiver.deregister (Receiver.register c env).1 po2).1.ctl
        = (Receiver.register c env).1.ctl
    ∧ (Receiver.register
          (Receiver.deregister (Receiver.register c env).1 po2).1 env3).2.2
        = RegResult.ioErr alreadyRegisteredErr := by
  obtain ⟨hres, hctl⟩ := register_ok_of_empty c.ctl env h1 h2
  refine ⟨?_, ?_, ?_, ?_, ?_, ?_⟩
  · simp [Receiver.reregister, ReceiverCtl.reregister, h1]
  · simp [Receiver.deregister, ReceiverCtl.deregister, h1]
  · simpa [Receiver.register] using hres
  · simp only [Receiver.register]
    rw [hctl]
    simp [ReceiverCtl.register]
  · simp only [Receiver.register, Receiver.deregister]
    rw [hctl]
    simp [ReceiverCtl.deregister]
  · simp only [Receiver.register, Receiver.deregister]
    rw [hctl]
    simp [ReceiverCtl.deregister, ReceiverCtl.register]

/-- C4 witness: the lifecycle on a fresh unbounded channel. -/
theorem registration_lifecycle_witness :
    (Receiver.reregister (from_std_channel Nat) (Except.ok ())).2
        = Except.error notRegisteredErr
    ∧ (Receiver.deregister (from_std_channel Nat) (Except.ok ())).2
        = Except.error notRegisteredErr
    ∧ (Receiver.register (from_std_channel Nat) []).2.2 = RegResult.ok
    ∧ (Receiver.register (Receiver.register (from_std_channel Nat) []).1 []).2.2
        = RegResult.ioErr alreadyRegisteredErr
    ∧ (Receiver.deregister (Receiver.register (from_std_channel Nat) []).1
          (Except.ok ())).1.ctl
        = (Receiver.register (from_std_channel Nat) []).1.ctl
    ∧ (Receiver.register
          (Receiver.deregister (Receiver.register (from_std_channel Nat) []).1
            (Except.ok ())).1 []).2.2
        = RegResult.ioErr alreadyRegisteredErr :=
  registration_lifecycle Nat (from_std_channel Nat) (Except.ok ()) (Except.ok ())
    [] [] [] rfl rfl

/-- C5: a first successful `register` immediately calls the fresh
setter with readable exactly when `pending > 0` at that moment, makes
no initial call when `pending = 0`, and returns success for every
outcome environment — the initial call result is discarded, so even a
failing initial set is swallowed. -/
theorem register_initial_readiness (r : ReceiverCtl) (env : List (Option IoError))
    (h1 : r.registration = false) (h2 : r.inner.set_readiness = false) :
    (ReceiverCtl.register r env).res = RegResult.ok
    ∧ (0 < r.inner.pending →
        (ReceiverCtl.register r env).initCalls = [EventSet.readable])
    ∧ (r.inner.pending = 0 → (ReceiverCtl.register r env).initCalls = []) := by
  refine ⟨(register_ok_of_empty r env h1 h2).1, fun h => ?_, fun h => ?_⟩
  · simp [ReceiverCtl.register, h1, h2, lazySet, h]
  · simp [ReceiverCtl.register, h1, h2, lazySet, h]

/-- C5 witness: two messages already pending and a failing initial
setter call — register still succeeds and the call was readable. -/
theorem register_initial_readiness_witness :
    (ReceiverCtl.register ⟨false, ⟨2, false⟩⟩
        [Option.some ⟨ErrorKind.external 3, "poll gone"⟩]).res = RegResult.ok
    ∧ (ReceiverCtl.register ⟨false, ⟨2, false⟩⟩
        [Option.some ⟨ErrorKind.external 3, "poll gone"⟩]).initCalls
        = [EventSet.readable] := by
  have h := register_initial_readiness ⟨false, ⟨2, false⟩⟩
    [Option.some ⟨ErrorKind.external 3, "poll gone"⟩] rfl rfl
  exact ⟨h.1, h.2.1 (by decide)⟩

lemma sendStep_ctl (c : Chan α) (v : α) (env : List (Option IoError)) :
    (Sender.send c v env).1.ctl.registration = c.ctl.registration
    ∧ (Sender.send c v env).1.ctl.inner.set_readiness = c.ctl.inner.set_readiness := by
  unfold Sender.send
  rcases hs : StdSender.send c.transport v with ⟨t1, ts⟩
  cases ts <;> simp [hs]
  split <;> simp [inc_preserves_sr]

lemma trySendStep_ctl (c : Chan α) (v : α) (env : List (Option IoError)) :
    (Sender.trySend c v env).1.ctl.registration = c.ctl.registration
    ∧ (Sender.trySend c v env).1.ctl.inner.set_readiness = c.ctl.inner.set_readiness := by
  unfold Sender.trySend
  rcases hs : StdSender.trySend c.transport v with ⟨t1, ts⟩
  cases ts <;> simp [hs]
  split <;> simp [inc_preserves_sr]

lemma tryRecvStep_ctl (c : Chan α) (env : List (Option IoError)) :
    (Receiver.tryRecv c env).1.ctl.registration = c.ctl.registration
    ∧ (Receiver.tryRecv c env).1.ctl.inner.set_readiness = c.ctl.inner.set_readiness := by
  unfold Receiver.tryRecv
  rcases hs : stdTryRecv c.transport with ⟨t1, ts⟩
  cases ts <;> simp [hs, dec_preserves_sr]

lemma reregister_ctl (r : ReceiverCtl) (po : Except IoError Unit) :
    (ReceiverCtl.reregister r po).1 = r := by
  unfold ReceiverCtl.reregister
  split <;> rfl

lemma deregister_ctl (r : ReceiverCtl) (po : Except IoError Unit) :
    (ReceiverCtl.deregister r po).1 = r := by
  unfold ReceiverCtl.deregister
  split <;> rfl

lemma registerStep_reg_eq_sr (c : Chan α) (env : List (Option IoError))
    (h : c.ctl.registration = c.ctl.inner.set_readiness) :
    (Receiver.register c env).1.ctl.registration
      = (Receiver.register c env).1.ctl.inner.set_readiness := by
  by_cases hr : c.ctl.registration = true
  · simp [Receiver.register, ReceiverCtl.register, hr, ← h]
  · have hr2 : c.ctl.registration = false := by simpa using hr
    have hsr : c.ctl.inner.set_readiness = false := by rw [← h]; exact hr2
    obtain ⟨_, hctl⟩ := register_ok_of_empty c.ctl env hr2 hsr
    simp only [Receiver.register]
    rw [hctl]

lemma stepC_reg_eq_sr (a : RunAcc α) (op : ChanOp α)
    (h : a.chan.ctl.registration = a.chan.ctl.inner.set_readiness) :
    (stepC a op).chan.ctl.registration = (stepC a op).chan.ctl.inner.set_readiness := by
  cases op with
  | send v env =>
      have hc := sendStep_ctl a.chan v env
      simp [stepC, hc.1, hc.2, h]
  | trySend v env =>
      have hc := trySendStep_ctl a.chan v env
      simp [stepC, hc.1, hc.2, h]
  | tryRecv env =>
      have hc := tryRecvStep_ctl a.chan env
      simp [stepC, hc.1, hc.2, h]
  | register env => simpa [stepC] using registerStep_reg_eq_sr a.chan env h
  | reregister po => simpa [stepC, Receiver.reregister, reregister_ctl] using h
  | deregister po => simpa [stepC, Receiver.deregister, deregister_ctl] using h

lemma runC_reg_eq_sr (ops : List (ChanOp α)) (a : RunAcc α)
    (h : a.chan.ctl.registration = a.chan.ctl.inner.set_readiness) :
    (runC a ops).chan.ctl.registration = (runC a ops).chan.ctl.inner.set_readiness := by
  induction ops generalizing a with
  | nil => simpa [runC] using h
  | cons op ops ih => exact ih (stepC a op) (stepC_reg_eq_sr a op h)

/-- C10: on every channel reachable from a fresh unbounded channel by
any sequence of operations, whenever the registration cell is empty
(so the guard at the top of `register` does not return), both
write-once publications succeed: `register` returns ok, and in
particular neither `expect("unexpected state encountered")` branch is
reached. -/
theorem register_publications_succeed (α : Type) (ops : List (ChanOp α))
    (env : List (Option IoError))
    (h : (run (from_std_channel α) ops).ctl.registration = false) :
    (ReceiverCtl.register (run (from_std_channel α) ops).ctl env).res = RegResult.ok
    ∧ ∀ msg, (ReceiverCtl.register (run (from_std_channel α) ops).ctl env).res
        ≠ RegResult.panicked msg := by
  have hinv := runC_reg_eq_sr ops ⟨from_std_channel α, 0, 0, false⟩ rfl
  have hsr : (run (from_std_channel α) ops).ctl.inner.set_readiness = false := by
    rw [run] at h ⊢
    exact hinv.symm.trans h
  obtain ⟨hres, _⟩ := register_ok_of_empty _ env h hsr
  exact ⟨hres, fun msg hmsg => by rw [hres] at hmsg; cases hmsg⟩

/-- C10 witness: the empty run, i.e. the very first `register`. -/
theorem register_publications_succeed_witness :
    (ReceiverCtl.register (run (from_std_channel Nat) []).ctl []).res = RegResult.ok :=
  (register_publications_succeed Nat [] [] rfl).1

/-- C6: readiness-setter error propagation is asymmetric. Send path
(channel `c`: unbounded, live receiver, `pending = 0`, occupied cell,
so `inc` does call the failing setter): `Sender::send` and
`Sender::try_send` return the `Io` error even though the value is
already in the queue. Receive path (channel `d`: nonempty queue,
`pending = 1`, occupied cell — the one state where `dec` is fallible):
with a failing-setter environment `dec` itself returns that error, yet
`Receiver::try_recv` on the very same environment still reports the
dequeued head, and does so for every other environment as well — the
`dec` error is discarded. -/
theorem readiness_error_asymmetry (α : Type) (c d : Chan α) (v w : α) (rest : List α)
    (e e2 : IoError) (env2 : List (Option IoError))
    (h1 : c.transport.receiverAlive = true) (h2 : c.transport.capacity = Option.none)
    (h3 : c.ctl.inner.pending = 0) (h4 : c.ctl.inner.set_readiness = true)
    (h5 : d.transport.queue = w :: rest) (h6 : d.ctl.inner.pending = 1)
    (h7 : d.ctl.inner.set_readiness = true) :
    (Sender.send c v [Option.some e]).2.2 = SendOutcome.err (SendError.io e)
    ∧ (Sender.send c v [Option.some e]).1.transport.queue = c.transport.queue ++ [v]
    ∧ (Sender.trySend c v [Option.some e]).2.2 = Except.error (TrySendError.io e)
    ∧ (Sender.trySend c v [Option.some e]).1.transport.queue = c.transport.queue ++ [v]
    ∧ (ReceiverCtl.dec d.ctl.inner [Option.some e2]).res = Except.error e2
    ∧ (Receiver.tryRecv d [Option.some e2]).2.2 = Except.ok w
    ∧ (Receiver.tryRecv d env2).2.2 = Except.ok w := by
  have hinc : SenderCtl.inc c.ctl.inner [Option.some e]
      = ⟨{ c.ctl.inner with pending := (c.ctl.inner.pending + 1) % USIZE },
          [EventSet.readable], Except.error e⟩ := by
    unfold SenderCtl.inc
    simp [h3, h4, takeOutcome]
  refine ⟨?_, ?_, ?_, ?_, ?_, ?_, ?_⟩
  · simp [Sender.send, StdSender.send, h1, h2, hinc]
  · simp [Sender.send, StdSender.send, h1, h2, hinc]
  · simp [Sender.trySend, StdSender.trySend, h1, h2, hinc]
  · simp [Sender.trySend, StdSender.trySend, h1, h2, hinc]
  · unfold ReceiverCtl.dec
    simp [h6, h7, takeOutcome]
  · simp [Receiver.tryRecv, stdTryRecv, h5]
  · simp [Receiver.tryRecv, stdTryRecv, h5]

/-- C6 witness: on the receive side a channel holding one message with
`pending` 1 and an occupied cell, so the failing environment makes
`dec` return its error — the send surfaces its error, the receive does
not. -/
theorem readiness_error_asymmetry_witness :
    (Sender.send (⟨⟨[], Option.none, true, true⟩, ⟨true, ⟨0, true⟩⟩⟩ : Chan Nat) 5
        [Option.some ⟨ErrorKind.external 1, "down"⟩]).2.2
      = SendOutcome.err (SendError.io ⟨ErrorKind.external 1, "down"⟩)
    ∧ (ReceiverCtl.dec (⟨⟨[9], Option.none, true, true⟩,
          ⟨true, ⟨1, true⟩⟩⟩ : Chan Nat).ctl.inner
        [Option.some ⟨ErrorKind.external 2, "down too"⟩]).res
      = Except.error ⟨ErrorKind.external 2, "down too"⟩
    ∧ (Receiver.tryRecv (⟨⟨[9], Option.none, true, true⟩, ⟨true, ⟨1, true⟩⟩⟩ : Chan Nat)
        [Option.some ⟨ErrorKind.external 2, "down too"⟩]).2.2 = Except.ok 9 := by
  have h := readiness_error_asymmetry Nat
    ⟨⟨[], Option.none, true, true⟩, ⟨true, ⟨0, true⟩⟩⟩
    ⟨⟨[9], Option.none, true, true⟩, ⟨true, ⟨1, true⟩⟩⟩ 5 9 []
    ⟨ErrorKind.external 1, "down"⟩ ⟨ErrorKind.external 2, "down too"⟩ []
    rfl rfl rfl rfl rfl rfl rfl
  exact ⟨h.1, h.2.2.2.2.1, h.2.2.2.2.2.1⟩

set_option maxRecDepth 16384 in
/-- C7: on a fresh unbounded channel, sending `v1, v2, v3` succeeds
with `pending` reaching 3, and draining with `try_recv` returns
exactly `v1, v2, v3` in order with `pending` reading 2, 1, 0 after the
respective dequeues, leaving the queue empty. -/
theorem fifo_round_trip (α : Type) (v1 v2 v3 : α) :
    (Sender.send (from_std_channel α) v1 []).2.2 = SendOutcome.ok
    ∧ (Sender.send (Sender.send (from_std_channel α) v1 []).1 v2 []).2.2 = SendOutcome.ok
    ∧ (Sender.send (Sender.send (Sender.send (from_std_channel α) v1 []).1 v2 []).1
        v3 []).2.2 = SendOutcome.ok
    ∧ (Sender.send (Sender.send (Sender.send (from_std_channel α) v1 []).1 v2 []).1
        v3 []).1.ctl.inner.pending = 3
    ∧ (Receiver.tryRecv (Sender.send (Sender.send (Sender.send (from_std_channel α)
        v1 []).1 v2 []).1 v3 []).1 []).2.2 = Except.ok v1
    ∧ (Receiver.tryRecv (Sender.send (Sender.send (Sender.send (from_std_channel α)
        v1 []).1 v2 []).1 v3 []).1 []).1.ctl.inner.pending = 2
    ∧ (Receiver.tryRecv (Receiver.tryRecv (Sender.send (Sender.send (Sender.send
        (from_std_channel α) v1 []).1 v2 []).1 v3 []).1 []).1 []).2.2 = Except.ok v2
    ∧ (Receiver.tryRecv (Receiver.tryRecv (Sender.send (Sender.send (Sender.send
        (from_std_channel α) v1 []).1 v2 []).1 v3 []).1 []).1 []).1.ctl.inner.pending = 1
    ∧ (Receiver.tryRecv (Receiver.tryRecv (Receiver.tryRecv (Sender.send (Sender.send
        (Sender.send (from_std_channel α) v1 []).1 v2 []).1 v3 []).1 []).1 []).1 []).2.2
      = Except.ok v3
    ∧ (Receiver.tryRecv (Receiver.tryRecv (Receiver.tryRecv (Sender.send (Sender.send
        (Sender.send (from_std_channel α) v1 []).1 v2 []).1 v3 []).1 []).1 []).1
        []).1.ctl.inner.pending = 0
    ∧ (Receiver.tryRecv (Receiver.tryRecv (Receiver.tryRecv (Sender.send (Sender.send
        (Sender.send (from_std_channel α) v1 []).1 v2 []).1 v3 []).1 []).1 []).1
        []).1.transport.queue = ([] : List α) := by
  have hm1 : (1 : Nat) % USIZE = 1 := by norm_num [USIZE]
  have hm2 : (2 : Nat) % USIZE = 2 := by norm_num [USIZE]
  have hm3 : (3 : Nat) % USIZE = 3 := by norm_num [USIZE]
  have hs3 : wrapSub1 3 = 2 := by norm_num [wrapSub1, USIZE]
  have hs2 : wrapSub1 2 = 1 := by norm_num [wrapSub1, USIZE]
  have hs1 : wrapSub1 1 = 0 := by norm_num [wrapSub1, USIZE]
  have e1 : Sender.send (from_std_channel α) v1 []
      = (⟨⟨[v1], Option.none, true, true⟩, ⟨false, ⟨1, false⟩⟩⟩, [], SendOutcome.ok) := by
    simp [Sender.send, StdSender.send, from_std_channel, inc_sr_false, hm1]
  have e2 : Sender.send (⟨⟨[v1], Option.none, true, true⟩,
        ⟨false, ⟨1, false⟩⟩⟩ : Chan α) v2 []
      = (⟨⟨[v1, v2], Option.none, true, true⟩, ⟨false, ⟨2, false⟩⟩⟩, [],
          SendOutcome.ok) := by
    simp [Sender.send, StdSender.send, inc_sr_false, hm2]
  have e3 : Sender.send (⟨⟨[v1, v2], Option.none, true, true⟩,
        ⟨false, ⟨2, false⟩⟩⟩ : Chan α) v3 []
      = (⟨⟨[v1, v2, v3], Option.none, true, true⟩, ⟨false, ⟨3, false⟩⟩⟩, [],
          SendOutcome.ok) := by
    simp [Sender.send, StdSender.send, inc_sr_false, hm3]
  have r1 : Receiver.tryRecv (⟨⟨[v1, v2, v3], Option.none, true, true⟩,
        ⟨false, ⟨3, false⟩⟩⟩ : Chan α) []
      = (⟨⟨[v2, v3], Option.none, true, true⟩, ⟨false, ⟨2, false⟩⟩⟩,
          [DecEvent.decrement 3], Except.ok v1) := by
    simp [Receiver.tryRecv, stdTryRecv, dec_sr_false, hs3]
  have r2 : Receiver.tryRecv (⟨⟨[v2, v3], Option.none, true, true⟩,
        ⟨false, ⟨2, false⟩⟩⟩ : Chan α) []
      = (⟨⟨[v3], Option.none, true, true⟩, ⟨false, ⟨1, false⟩⟩⟩,
          [DecEvent.decrement 2], Except.ok v2) := by
    simp [Receiver.tryRecv, stdTryRecv, dec_sr_false, hs2]
  have r3 : Receiver.tryRecv (⟨⟨[v3], Option.none, true, true⟩,
        ⟨false, ⟨1, false⟩⟩⟩ : Chan α) []
      = (⟨⟨[], Option.none, true, true⟩, ⟨false, ⟨0, false⟩⟩⟩,
          [DecEvent.decrement 1], Except.ok v3) := by
    simp [Receiver.tryRecv, stdTryRecv, dec_sr_false, hs1]
  refine ⟨?_, ?_, ?_, ?_, ?_, ?_, ?_, ?_, ?_, ?_, ?_⟩ <;>
    simp only [e1, e2, e3, r1, r2, r3]

lemma stdSend_capacity (t : Transport α) (v : α) :
    (StdSender.send t v).1.capacity = t.capacity := by
  rcases t with ⟨q, cap, sa, ra⟩
  cases ra <;> cases cap <;> simp [StdSender.send]
  all_goals split <;> rfl

lemma stdTrySend_capacity (t : Transport α) (v : α) :
    (StdSender.trySend t v).1.capacity = t.capacity := by
  rcases t with ⟨q, cap, sa, ra⟩
  cases ra <;> cases cap <;> simp [StdSender.trySend]
  all_goals split <;> rfl

lemma stdTryRecv_capacity (t : Transport α) :
    (stdTryRecv t).1.capacity = t.capacity := by
  rcases t with ⟨q, cap, sa, ra⟩
  cases q <;> cases sa <;> simp [stdTryRecv]

lemma sendStep_capacity (c : Chan α) (v : α) (env : List (Option IoError)) :
    (Sender.send c v env).1.transport.capacity = c.transport.capacity := by
  unfold Sender.send
  rcases hs : StdSender.send c.transport v with ⟨t1, ts⟩
  have h1 : t1.capacity = c.transport.capacity := by
    have h2 := stdSend_capacity c.transport v
    rwa [hs] at h2
  cases ts <;> simp [hs, h1]
  split <;> simp [h1]

lemma trySendStep_capacity (c : Chan α) (v : α) (env : List (Option IoError)) :
    (Sender.trySend c v env).1.transport.capacity = c.transport.capacity := by
  unfold Sender.trySend
  rcases hs : StdSender.trySend c.transport v with ⟨t1, ts⟩
  have h1 : t1.capacity = c.transport.capacity := by
    have h2 := stdTrySend_capacity c.transport v
    rwa [hs] at h2
  cases ts <;> simp [hs, h1]
  split <;> simp [h1]

lemma tryRecvStep_capacity (c : Chan α) (env : List (Option IoError)) :
    (Receiver.tryRecv c env).1.transport.capacity = c.transport.capacity := by
  unfold Receiver.tryRecv
  rcases hs : stdTryRecv c.transport with ⟨t1, ts⟩
  have h1 : t1.capacity = c.transport.capacity := by
    have h2 := stdTryRecv_capacity c.transport
    rwa [hs] at h2
  cases ts <;> simp [hs, h1]

lemma stepC_capacity (a : RunAcc α) (op : ChanOp α) :
    (stepC a op).chan.transport.capacity = a.chan.transport.capacity := by
  cases op with
  | send v env => simpa [stepC] using sendStep_capacity a.chan v env
  | trySend v env => simpa [stepC] using trySendStep_capacity a.chan v env
  | tryRecv env => simpa [stepC] using tryRecvStep_capacity a.chan env
  | register env => simp [stepC, Receiver.register]
  | reregister po => simp [stepC, Receiver.reregister]
  | deregister po => simp [stepC, Receiver.deregister]

lemma runC_capacity (ops : List (ChanOp α)) (a : RunAcc α) :
    (runC a ops).chan.transport.capacity = a.chan.transport.capacity := by
  induction ops generalizing a with
  | nil => simp [runC]
  | cons op ops ih => rw [runC, ih (stepC a op), stepC_capacity]

lemma trySend_unbounded_cases (c : Chan α) (v : α) (env : List (Option IoError))
    (hcap : c.transport.capacity = Option.none) :
    (Sender.trySend c v env).2.2 = Except.ok ()
    ∨ (∃ e, (Sender.trySend c v env).2.2 = Except.error (TrySendError.io e))
    ∨ (Sender.trySend c v env).2.2 = Except.error (TrySendError.disconnected v) := by
  unfold Sender.trySend
  rcases hs : StdSender.trySend c.transport v with ⟨t1, r⟩
  have hr : r = Except.ok () ∨ r = Except.error (TrySendError.disconnected v) := by
    have h2 := hs
    unfold StdSender.trySend at h2
    rw [hcap] at h2
    by_cases hra : c.transport.receiverAlive = true <;> simp [hra] at h2
    · exact Or.inl h2.2.symm
    · exact Or.inr h2.2.symm
  rcases hr with hr | hr <;> subst hr <;> simp [hs]
  rcases hres : (SenderCtl.inc c.ctl.inner env).res with _ | e <;> simp [hres]

/-- C9: on every channel built by `from_std_channel` (and evolved by
any operations), `try_send` delegates to the unbounded transport send:
it never returns `Full`, and its result is success, a readiness-setter
`Io` error, or `Disconnected` carrying the value back. -/
theorem from_std_channel_trySend_never_full (α : Type) (ops : List (ChanOp α))
    (v : α) (env : List (Option IoError)) :
    (∀ w, (Sender.trySend (run (from_std_channel α) ops) v env).2.2
        ≠ Except.error (TrySendError.full w))
    ∧ ((Sender.trySend (run (from_std_channel α) ops) v env).2.2 = Except.ok ()
      ∨ (∃ e, (Sender.trySend (run (from_std_channel α) ops) v env).2.2
          = Except.error (TrySendError.io e))
      ∨ (Sender.trySend (run (from_std_channel α) ops) v env).2.2
          = Except.error (TrySendError.disconnected v)) := by
  have hcap : (run (from_std_channel α) ops).transport.capacity = Option.none := by
    simpa [run, from_std_channel]
      using runC_capacity ops ⟨from_std_channel α, 0, 0, false⟩
  have hcases := trySend_unbounded_cases (run (from_std_channel α) ops) v env hcap
  refine ⟨fun w hw => ?_, hcases⟩
  rcases hcases with h | ⟨e, h⟩ | h <;> rw [h] at hw <;> simp at hw

lemma stepC_InvC8 (a : RunAcc α) (op : ChanOp α) (hop : ChanOp.isTransport op = true)
    (h : InvC8 a) (hb : a.chan.transport.queue.length + 1 < USIZE) :
    InvC8 (stepC a op)
    ∧ (stepC a op).chan.transport.queue.length
        ≤ a.chan.transport.queue.length + 1 := by
  obtain ⟨⟨⟨q, cap, sa, ra⟩, ⟨reg, p, sr⟩⟩, enq, deq, uf⟩ := a
  obtain ⟨hq, he, hu, hsr, hreg⟩ := h
  simp only at hq he hu hsr hreg hb
  subst hq hu hsr hreg
  have hmod : (q.length + 1) % USIZE = q.length + 1 := Nat.mod_eq_of_lt hb
  cases op with
  | register env => simp [ChanOp.isTransport] at hop
  | reregister po => simp [ChanOp.isTransport] at hop
  | deregister po => simp [ChanOp.isTransport] at hop
  | send v env =>
      cases ra with
      | false =>
          simp [stepC, Sender.send, StdSender.send, sendEnqueued, InvC8]
          omega
      | true =>
          cases cap with
          | none =>
              simp [stepC, Sender.send, StdSender.send, inc_sr_false, hmod,
                sendEnqueued, InvC8]
              omega
          | some cNat =>
              by_cases hfull : q.length < cNat
              · simp [stepC, Sender.send, StdSender.send, hfull, inc_sr_false, hmod,
                  sendEnqueued, InvC8]
                omega
              · simp [stepC, Sender.send, StdSender.send, hfull, sendEnqueued, InvC8]
                omega
  | trySend v env =>
      cases ra with
      | false =>
          simp [stepC, Sender.trySend, StdSender.trySend, trySendEnqueued, InvC8]
          cases cap <;> simp <;> omega
      | true =>
          cases cap with
          | none =>
              simp [stepC, Sender.trySend, StdSender.trySend, inc_sr_false, hmod,
                trySendEnqueued, InvC8]
              omega
          | some cNat =>
              by_cases hfull : q.length < cNat
              · simp [stepC, Sender.trySend, StdSender.trySend, hfull, inc_sr_false,
                  hmod, trySendEnqueued, InvC8]
                omega
              · simp [stepC, Sender.trySend, StdSender.trySend, hfull,
                  trySendEnqueued, InvC8]
                omega
  | tryRecv env =>
      cases q with
      | nil =>
          simp only [List.length_nil] at he hb
          cases sa <;>
            simp [stepC, Receiver.tryRecv, stdTryRecv, recvSucceeded, InvC8] <;>
            omega
      | cons w rest =>
          simp only [List.length_cons] at he hb
          have hwp : wrapSub1 (rest.length + 1) = rest.length := by
            rw [wrapSub1_eq _ (by omega) (by omega)]
            simp
          simp [stepC, Receiver.tryRecv, stdTryRecv, dec_sr_false, recvSucceeded,
            hwp, InvC8]
          omega

lemma runC_InvC8 (ops : List (ChanOp α)) (a : RunAcc α)
    (hops : ∀ op ∈ ops, ChanOp.isTransport op = true)
    (h : InvC8 a)
    (hb : a.chan.transport.queue.length + ops.length < USIZE) :
    InvC8 (runC a ops) := by
  induction ops generalizing a with
  | nil => simpa [runC] using h
  | cons op ops ih =>
      have hop : ChanOp.isTransport op = true := hops op (List.mem_cons_self op ops)
      have hb1 : a.chan.transport.queue.length + 1 < USIZE := by
        have : (op :: ops).length = ops.length + 1 := rfl
        omega
      obtain ⟨h1, hlen⟩ := stepC_InvC8 a op hop h hb1
      rw [runC]
      refine ih (stepC a op) (fun o ho => hops o (List.mem_cons_of_mem op ho)) h1 ?_
      have : (op :: ops).length = ops.length + 1 := rfl
      omega

/-- C8: for every freshly constructed channel — built by
`from_std_channel` or by `from_std_sync_channel` of any capacity — and
every sequence of `send`/`try_send`/`try_recv` operations on it (of
any physically realizable length, below `2 ^ 64`), the `pending`
counter equals the number of successful enqueues minus the number of
successful dequeues — stated additively over `Nat`, which also gives
`pending ≥ 0` and dequeues ≤ enqueues; a `try_send` that fails `Full`
or a `send` that blocks does not count as an enqueue — and no
`fetch_sub(1)` ever executed on a zero counter (no underflow). -/
theorem pending_counts_messages (α : Type) (c0 : Chan α) (ops : List (ChanOp α))
    (hinit : c0 = from_std_channel α ∨ ∃ cap, c0 = from_std_sync_channel α cap)
    (hops : ∀ op ∈ ops, ChanOp.isTransport op = true)
    (hlen : ops.length < USIZE) :
    (runC ⟨c0, 0, 0, false⟩ ops).chan.ctl.inner.pending
        + (runC ⟨c0, 0, 0, false⟩ ops).deq
      = (runC ⟨c0, 0, 0, false⟩ ops).enq
    ∧ (runC ⟨c0, 0, 0, false⟩ ops).underflow = false := by
  have hInv : InvC8 (⟨c0, 0, 0, false⟩ : RunAcc α) := by
    rcases hinit with h | ⟨cap, h⟩ <;> subst h <;> exact ⟨rfl, rfl, rfl, rfl, rfl⟩
  have hq0 : c0.transport.queue.length = 0 := by
    rcases hinit with h | ⟨cap, h⟩ <;> subst h <;> rfl
  have h := runC_InvC8 ops ⟨c0, 0, 0, false⟩ hops hInv (by rw [hq0]; omega)
  exact ⟨h.2.1, h.2.2.1⟩

/-- C8 witness: a fresh bounded channel of capacity 1; the second
`try_send` fails `Full` and the blocking `send` blocks, so neither
counts as an enqueue, and the last `try_recv` hits an empty queue. -/
theorem pending_counts_messages_witness :
    (runC ⟨from_std_sync_channel Nat 1, 0, 0, false⟩
        [ChanOp.trySend 5 [], ChanOp.trySend 7 [], ChanOp.send 8 [],
          ChanOp.tryRecv [], ChanOp.tryRecv []]).chan.ctl.inner.pending
        + (runC ⟨from_std_sync_channel Nat 1, 0, 0, false⟩
        [ChanOp.trySend 5 [], ChanOp.trySend 7 [], ChanOp.send 8 [],
          ChanOp.tryRecv [], ChanOp.tryRecv []]).deq
      = (runC ⟨from_std_sync_channel Nat 1, 0, 0, false⟩
        [ChanOp.trySend 5 [], ChanOp.trySend 7 [], ChanOp.send 8 [],
          ChanOp.tryRecv [], ChanOp.tryRecv []]).enq
    ∧ (runC ⟨from_std_sync_channel Nat 1, 0, 0, false⟩
        [ChanOp.trySend 5 [], ChanOp.trySend 7 [], ChanOp.send 8 [],
          ChanOp.tryRecv [], ChanOp.tryRecv []]).underflow = false :=
  pending_counts_messages Nat (from_std_sync_channel Nat 1)
    [ChanOp.trySend 5 [], ChanOp.trySend 7 [], ChanOp.send 8 [],
      ChanOp.tryRecv [], ChanOp.tryRecv []]
    (Or.inr ⟨1, rfl⟩)
    (by intro op hop; fin_cases hop <;> rfl)
    (by norm_num [USIZE])

end MioChannel

